import Mathlib

/-!
Verification development for the Words-Training repository
(src/main.py): a local static-file HTTP development server built on
Python's http.server.SimpleHTTPRequestHandler.

The embedding models:
* the mimetypes module state after the module-level add_type calls
  (src/main.py lines 15-18), layered over a representative subset of
  CPython's default extension-to-type table;
* the request handler: GameHandler (src/main.py lines 26-42), whose
  end_headers appends four fixed headers to every response and whose
  do_GET rewrites the exact path "/" to "/index.html", over a model of
  the platform base handler SimpleHTTPRequestHandler (send_head /
  send_error / do_GET / do_HEAD), with the filesystem abstracted as a
  partial map from translated paths to entries;
* the startup sequence start_game_server (src/main.py lines 46-71) as
  an effect trace, with a scenario parameter choosing the outcome of
  the fallible operations (browser launch, bind, serve loop).
-/

namespace WordsTraining

/-! ## Configuration (src/main.py lines 9-11)

PORT is the fixed constant 8000.  DIRECTORY is computed once at module
load as os.path.dirname(os.path.abspath(__file__)): the directory that
contains the server program itself.  The absolute file path is a
parameter of the process model (it depends on where the repository is
checked out); DIRECTORY is its POSIX dirname. -/

def PORT : Nat := 8000

/-- Cut a string at the first occurrence of a separator character,
keeping the part before it (str.split(sep, 1)[0]). -/
def cutAt (sep : Char) (p : String) : String :=
  String.mk (p.toList.takeWhile (fun c => c ≠ sep))

/-- Python's path.endswith("/"): whether the last character is a
slash. -/
def endsWithSlash (p : String) : Bool :=
  match p.toList.getLast? with
  | some c => c = '/'
  | none => false

/-- POSIX dirname of a path (os.path.dirname): everything up to the
final slash, with trailing slashes stripped unless the result is all
slashes. -/
def posixDirname (p : String) : String :=
  let head := ((p.toList.reverse.dropWhile (fun c => c ≠ '/')).reverse)
  if head.all (fun c => c = '/') then String.mk head
  else String.mk ((head.reverse.dropWhile (fun c => c = '/')).reverse)

/-- DIRECTORY = os.path.dirname(os.path.abspath(__file__)) (line 11),
as a function of the absolute path of the program file. -/
def DIRECTORY (fileAbs : String) : String := posixDirname fileAbs

/-! ## MIME model (src/main.py lines 15-18)

mimetypes keeps a global extension-to-type table.  `add_type` assigns
`types_map[ext] = type`, overriding any existing entry.  We model the
table as an association list searched front to back, so assignment is
cons to the front. -/

abbrev TypesMap := List (String × String)

/-- Representative subset of CPython's built-in default types_map
(mimetypes._types_map_default).  Note that the platform default maps
".ts" to the video type "video/mp2t", and has no entry for ".tsx". -/
def defaultTypesMap : TypesMap :=
  [ (".css", "text/css")
  , (".htm", "text/html")
  , (".html", "text/html")
  , (".js", "text/javascript")
  , (".json", "application/json")
  , (".png", "image/png")
  , (".ts", "video/mp2t")
  , (".txt", "text/plain") ]

/-- mimetypes.add_type: assign types_map[ext] = ty (front insertion
shadows any older binding for the same extension). -/
def add_type (m : TypesMap) (ty ext : String) : TypesMap :=
  (ext, ty) :: m

/-- The global mimetypes table after the three module-level add_type
calls of src/main.py lines 16-18 (mimetypes.init() loads the default
table first, line 15). -/
def programTypesMap : TypesMap :=
  add_type (add_type (add_type defaultTypesMap
    "application/javascript" ".ts")
    "application/javascript" ".tsx")
    "application/json" ".json"

/-- Last component of a slash-separated path (posixpath.basename):
the characters after the final slash. -/
def lastComponent (p : String) : String :=
  String.mk ((p.toList.reverse.takeWhile (fun c => c ≠ '/')).reverse)

/-- Extension part of posixpath.splitext applied to the basename:
the suffix starting at the last dot, where dots that lead the basename
do not begin an extension (so ".bashrc" has extension ""). -/
def extOfChars (cs : List Char) : List Char :=
  let rest := cs.dropWhile (fun c => c = '.')
  if rest.contains '.' then
    '.' :: ((rest.reverse.takeWhile (fun c => c ≠ '.')).reverse)
  else []

/-- Extension of a path, as posixpath.splitext computes it. -/
def extOf (p : String) : String :=
  String.mk (extOfChars (lastComponent p).toList)

/-- str.lower() on an extension (ASCII case folding). -/
def extLower (s : String) : String :=
  String.mk (s.toList.map Char.toLower)

/-- mimetypes.guess_type restricted to table lookup: look the
extension up in the global table, then its lowercase form; none if
absent.  (The suffix/encoding maps for compressed files are not
modelled; no claim involves them.) -/
def mimetypes.guess_type (m : TypesMap) (path : String) : Option String :=
  let ext := extOf path
  match m.lookup ext with
  | some ty => some ty
  | none => m.lookup (extLower ext)

/-! ## Base handler: SimpleHTTPRequestHandler (platform stdlib)

The repository's handler inherits from Python's stdlib
http.server.SimpleHTTPRequestHandler; the stdlib is not part of the
repository, so it is modelled here (CPython 3.9+ behavior) with the
simplifications noted in the doc comments.  The handler's end_headers
is dynamically dispatched, so the base methods take it as a
parameter. -/

/-- A filesystem entry: a regular file with its contents, or a
directory. -/
inductive Entry where
  | file (content : String)
  | dir
deriving DecidableEq, Repr

/-- The filesystem, keyed by translated paths. -/
abbrev FS := String → Option Entry

/-- An HTTP response: status code, header list in emission order, and
body. -/
structure Response where
  status : Nat
  headers : List (String × String)
  body : String
deriving DecidableEq, Repr

abbrev Headers := List (String × String)

/-- Header transformation applied by the handler's end_headers when
the buffered headers are flushed (dynamically dispatched). -/
abbrev EndHeaders := Headers → Headers

namespace SimpleHTTPRequestHandler

/-- The class-level extensions_map of CPython 3.9+ (consulted before
the mimetypes module; holds only compressed-file types). -/
def extensions_map : TypesMap :=
  [ (".gz", "application/gzip")
  , (".Z", "application/octet-stream")
  , (".bz2", "application/x-bzip2")
  , (".xz", "application/x-xz") ]

/-- SimpleHTTPRequestHandler.guess_type (CPython 3.9+): consult the
class-level extensions_map (exact, then lowercased extension), then
mimetypes.guess_type on the global table, defaulting to
application/octet-stream. -/
def guess_type (m : TypesMap) (path : String) : String :=
  let ext := extOf path
  match extensions_map.lookup ext with
  | some ty => ty
  | none =>
    match extensions_map.lookup (extLower ext) with
    | some ty => ty
    | none =>
      match mimetypes.guess_type m path with
      | some ty => ty
      | none => "application/octet-stream"

/-- translate_path: discard the query ("?...") and fragment ("#...")
components of the request target, keeping the path component.
(URL unquoting and dot-segment normalization are not modelled; no
claim involves quoted or dot paths.) -/
def translate_path (p : String) : String :=
  cutAt '#' (cutAt '?' p)

/-- The URL path component of the raw request target (urlsplit(...).path):
the part before any "?" or "#". -/
def urlPath (p : String) : String := translate_path p

/-- os.path.join of a directory path and a simple name. -/
def joinPath (dirPath name : String) : String :=
  if endsWithSlash dirPath then dirPath ++ name
  else dirPath ++ "/" ++ name

/-- Whether the filesystem has a regular file at the path
(os.path.isfile). -/
def isFile (fs : FS) (p : String) : Bool :=
  match fs p with
  | some (Entry.file _) => true
  | _ => false

/-- The stdlib's standard error page (DEFAULT_ERROR_MESSAGE rendered
for a code and message); GameHandler overrides neither send_error nor
error_message_format, so its error responses use exactly this page. -/
def standardErrorPage (code : Nat) (message : String) : String :=
  "<!DOCTYPE HTML><html><head><title>Error response</title></head>" ++
  "<body><h1>Error response</h1><p>Error code: " ++ toString code ++
  "</p><p>Message: " ++ message ++ ".</p></body></html>"

/-- BaseHTTPRequestHandler.send_error: a response with the given
status, the standard error headers, and the standard error page as
body; headers are flushed through the dispatched end_headers. -/
def send_error (endH : EndHeaders) (code : Nat) (message : String) :
    Response :=
  let body := standardErrorPage code message
  { status := code
  , headers := endH
      [ ("Content-Type", "text/html;charset=utf-8")
      , ("Connection", "close")
      , ("Content-Length", toString body.length) ]
  , body := body }

/-- The 200 response serving a regular file: Content-Type from
guess_type, Content-Length, headers flushed through end_headers. -/
def okFileResponse (endH : EndHeaders) (ctype content : String) :
    Response :=
  { status := 200
  , headers := endH
      [ ("Content-Type", ctype)
      , ("Content-Length", toString content.length) ]
  , body := content }

/-- The 301 redirect a directory request without a trailing slash
receives (Location is the request target with "/" appended). -/
def redirectResponse (endH : EndHeaders) (location : String) :
    Response :=
  { status := 301
  , headers := endH
      [ ("Location", location), ("Content-Length", "0") ]
  , body := "" }

/-- list_directory: the generated HTML index of a directory (the
listing entries themselves are not modelled; the claims only concern
its status, headers and that it is not a 404). -/
def listDirectoryResponse (endH : EndHeaders) (dirPath : String) :
    Response :=
  let body := "<html><head><title>Directory listing for " ++ dirPath ++
    "</title></head><body></body></html>"
  { status := 200
  , headers := endH
      [ ("Content-Type", "text/html; charset=utf-8")
      , ("Content-Length", toString body.length) ]
  , body := body }

/-- The tail of send_head after directory handling: a trailing-slash
path is a 404; otherwise open the file and serve it, an OSError
(absent file) giving the standard 404. -/
def serveFile (endH : EndHeaders) (m : TypesMap) (fs : FS)
    (path : String) : Response :=
  if endsWithSlash path then send_error endH 404 "File not found"
  else
    match fs path with
    | some (Entry.file c) => okFileResponse endH (guess_type m path) c
    | _ => send_error endH 404 "File not found"

/-- SimpleHTTPRequestHandler.send_head: translate the request target;
a directory target without a trailing URL slash is redirected; with a
slash, index.html then index.htm is served if present, else the
directory listing; otherwise the target is served as a file (404 if
absent). -/
def send_head (endH : EndHeaders) (m : TypesMap) (fs : FS)
    (rawPath : String) : Response :=
  let path := translate_path rawPath
  match fs path with
  | some Entry.dir =>
    if ¬ endsWithSlash (urlPath rawPath) then
      redirectResponse endH (rawPath ++ "/")
    else
      let idx1 := joinPath path "index.html"
      let idx2 := joinPath path "index.htm"
      if isFile fs idx1 then serveFile endH m fs idx1
      else if isFile fs idx2 then serveFile endH m fs idx2
      else listDirectoryResponse endH path
  | _ => serveFile endH m fs path

/-- SimpleHTTPRequestHandler.do_GET: send_head, then the file body is
copied to the client (the body is already part of the modelled
response). -/
def do_GET (endH : EndHeaders) (m : TypesMap) (fs : FS)
    (rawPath : String) : Response :=
  send_head endH m fs rawPath

/-- SimpleHTTPRequestHandler.do_HEAD: send_head with the body
discarded (status and headers as for GET). -/
def do_HEAD (endH : EndHeaders) (m : TypesMap) (fs : FS)
    (rawPath : String) : Response :=
  { send_head endH m fs rawPath with body := "" }

/-- BaseHTTPRequestHandler's handling of a request method with no
do_<METHOD> handler on the class: send_error 501. -/
def unsupportedMethod (endH : EndHeaders) (method : String) :
    Response :=
  send_error endH 501 ("Unsupported method (" ++ method ++ ")")

end SimpleHTTPRequestHandler

/-! ## GameHandler (src/main.py lines 26-42) -/

namespace GameHandler

/-- The four fixed headers GameHandler.end_headers sends on every
response (src/main.py lines 32-35), in source order. -/
def gameExtraHeaders : Headers :=
  [ ("Access-Control-Allow-Origin", "*")
  , ("Cache-Control", "no-store, no-cache, must-revalidate, max-age=0")
  , ("Pragma", "no-cache")
  , ("Expires", "0") ]

/-- GameHandler.end_headers (lines 30-36): send the four fixed headers
after whatever the base class already buffered, then flush
(super().end_headers()). -/
def end_headers (hs : Headers) : Headers :=
  hs ++ gameExtraHeaders

/-- The path rewrite of GameHandler.do_GET (lines 40-41): exactly the
raw target "/" becomes "/index.html"; every other target is kept. -/
def rewriteRoot (p : String) : String :=
  if p = "/" then "/index.html" else p

/-- GameHandler.do_GET (lines 38-42): rewrite the root path, then
defer to the base class do_GET, with end_headers dispatching to the
override. -/
def do_GET (fs : FS) (p : String) : Response :=
  SimpleHTTPRequestHandler.do_GET end_headers programTypesMap fs
    (rewriteRoot p)

/-- GameHandler does not override do_HEAD: HEAD requests go to the
base class with the raw target (only end_headers dispatches to the
override). -/
def do_HEAD (fs : FS) (p : String) : Response :=
  SimpleHTTPRequestHandler.do_HEAD end_headers programTypesMap fs p

/-- An unsupported method on GameHandler: the base class 501, with
end_headers dispatching to the override. -/
def unsupportedMethod (method : String) : Response :=
  SimpleHTTPRequestHandler.unsupportedMethod end_headers method

end GameHandler

/-! ## Startup sequence as an effect trace (src/main.py lines 15-18
and 46-75)

The observable effects of running the program are modelled as a list
of events.  The fallible operations — the browser launch (lines
56-59), the bind (line 62) and the serve loop (line 66) — have their
outcomes chosen by a Scenario.  serve_forever never returns normally,
so the serve loop ends either with a KeyboardInterrupt or with some
other exception; an exception raised by the ThreadedHTTPServer
constructor (the bind, typically port-in-use) reaches the same try
block before anything is served. -/

inductive Event where
  | addType (ty ext : String)
  | chdir (d : String)
  | print (msg : String)
  | browserAttempt (url : String)
  | bind (port : Nat)
  | serveLoop
deriving DecidableEq, Repr

/-- How the try block of lines 61-66 ends: the bind raises (with the
exception's message), the serve loop is interrupted by the user, or
the serve loop raises some other exception. -/
inductive RunOutcome where
  | bindError (msg : String)
  | interrupted
  | serveError (msg : String)
deriving DecidableEq, Repr

/-- One run of the process: where the program file sits, whether the
browser launch succeeds, and how the try block ends. -/
structure Scenario where
  fileAbs : String
  browserOk : Bool
  outcome : RunOutcome
deriving DecidableEq, Repr

/-- The module-level MIME registrations (lines 15-18), in source
order. -/
def mimeSetupEvents : List Event :=
  [ Event.addType "application/javascript" ".ts"
  , Event.addType "application/javascript" ".tsx"
  , Event.addType "application/json" ".json" ]

/-- The URL passed to webbrowser.open (line 57): the served root,
http://localhost:<PORT> (its path component is empty, which for an
http URL denotes the root "/"). -/
def rootURL : String := "http://localhost:" ++ toString PORT

/-- The separator of lines 49 and 53: "=" repeated 60 times. -/
def sepLine : String := String.mk (List.replicate 60 '=')

/-- The status banner of lines 49-53. -/
def bannerEvents (dir : String) : List Event :=
  [ Event.print ("\n" ++ sepLine)
  , Event.print "🎨 儿童英语单词学习游戏 (Word Match Adventure)"
  , Event.print ("🏠 运行目录: " ++ dir)
  , Event.print ("🌐 访问地址: http://localhost:" ++ toString PORT)
  , Event.print (sepLine ++ "\n") ]

/-- Lines 56-59: try: webbrowser.open(rootURL) except: pass.  A failed
launch raises inside webbrowser.open and the bare except swallows it,
so both outcomes leave the same single attempt event and print
nothing. -/
def browserEvents (browserOk : Bool) : List Event :=
  if browserOk then [Event.browserAttempt rootURL]
  else [Event.browserAttempt rootURL]

/-- The prints inside the with block once the bind succeeded (lines
63-65). -/
def serveBannerEvents : List Event :=
  [ Event.print "🚀 服务器已启动！正在监听请求..."
  , Event.print "💡 如果页面显示空白，请在浏览器中按 F12 查看控制台报错。"
  , Event.print "🛑 按 Ctrl+C 可以停止服务器。" ]

/-- The except-Exception handler of lines 69-71: print the failure
with the exception text and the hint to close other instances. -/
def failureEvents (msg : String) : List Event :=
  [ Event.print ("❌ 启动失败，原因: " ++ msg)
  , Event.print "💡 可能是端口被占用，请尝试关闭其他 Python 运行窗口。" ]

/-- The try block of lines 61-71: bind then serve until interrupted.
A bind error skips the with block entirely (nothing is served); a
KeyboardInterrupt from serve_forever prints the clean shutdown
message (line 68); any other exception prints the failure and the
hint. -/
def tryServeEvents (o : RunOutcome) : List Event :=
  match o with
  | RunOutcome.bindError msg => failureEvents msg
  | RunOutcome.interrupted =>
      Event.bind PORT :: serveBannerEvents ++ [Event.serveLoop]
        ++ [Event.print "\n👋 服务器已安全关闭。"]
  | RunOutcome.serveError msg =>
      Event.bind PORT :: serveBannerEvents ++ [Event.serveLoop]
        ++ failureEvents msg

/-- start_game_server (lines 46-71): chdir to DIRECTORY, print the
banner, attempt the browser launch, then run the guarded bind-and-
serve block. -/
def start_game_server (s : Scenario) : List Event :=
  Event.chdir (DIRECTORY s.fileAbs)
    :: bannerEvents (DIRECTORY s.fileAbs)
    ++ browserEvents s.browserOk
    ++ tryServeEvents s.outcome

/-- Whether an exception escapes start_game_server: none does — every
path of the try block is covered by the except clauses, so the
function returns and the process exits normally (status 0) in every
scenario. -/
def uncaughtException (s : Scenario) : Option String :=
  match s.outcome with
  | RunOutcome.bindError _ => none
  | RunOutcome.interrupted => none
  | RunOutcome.serveError _ => none

/-- The whole process: the module-level MIME registrations (run at
import, lines 15-18), then start_game_server (line 75). -/
def programTrace (s : Scenario) : List Event :=
  mimeSetupEvents ++ start_game_server s

/-- Whether an event changes the process working directory. -/
def isChdir (e : Event) : Bool :=
  match e with
  | Event.chdir _ => true
  | _ => false

/-! ## Helper lemmas -/

/-- Whatever headers the base class buffered, the four fixed headers
are in the flushed header list. -/
theorem extra_subset_end_headers (hs : Headers) :
    GameHandler.gameExtraHeaders ⊆ GameHandler.end_headers hs := by
  intro a ha
  exact List.mem_append_right hs ha

/-- Every response produced by the file-serving tail of send_head
flushes its headers through the dispatched end_headers. -/
theorem serveFile_headers_shape (endH : EndHeaders) (m : TypesMap)
    (fs : FS) (path : String) :
    ∃ hs, (SimpleHTTPRequestHandler.serveFile endH m fs path).headers
      = endH hs := by
  unfold SimpleHTTPRequestHandler.serveFile
    SimpleHTTPRequestHandler.send_error
    SimpleHTTPRequestHandler.okFileResponse
  dsimp only
  split
  · exact ⟨_, rfl⟩
  · split
    · exact ⟨_, rfl⟩
    · exact ⟨_, rfl⟩

/-- Every response produced by the base send_head flushes its headers
through the dispatched end_headers. -/
theorem send_head_headers_shape (endH : EndHeaders) (m : TypesMap)
    (fs : FS) (p : String) :
    ∃ hs, (SimpleHTTPRequestHandler.send_head endH m fs p).headers
      = endH hs := by
  unfold SimpleHTTPRequestHandler.send_head
    SimpleHTTPRequestHandler.redirectResponse
    SimpleHTTPRequestHandler.listDirectoryResponse
  dsimp only
  split
  · split
    · exact ⟨_, rfl⟩
    · split
      · exact serveFile_headers_shape _ _ _ _
      · split
        · exact serveFile_headers_shape _ _ _ _
        · exact ⟨_, rfl⟩
  · exact serveFile_headers_shape _ _ _ _

/-! ## Claims -/

/-- C1: For every response the server produces, regardless of the
requested path and of the response status code, the response headers
include all four fixed entries: Access-Control-Allow-Origin: *,
Cache-Control: no-store, no-cache, must-revalidate, max-age=0,
Pragma: no-cache, and Expires: 0.  Stated for every GET response,
every HEAD response, and the 501 response to an unsupported method,
over every filesystem and request target. -/
theorem c1_every_response_has_fixed_headers (fs : FS) (p m : String) :
    GameHandler.gameExtraHeaders ⊆ (GameHandler.do_GET fs p).headers ∧
    GameHandler.gameExtraHeaders ⊆ (GameHandler.do_HEAD fs p).headers ∧
    GameHandler.gameExtraHeaders
      ⊆ (GameHandler.unsupportedMethod m).headers := by
  refine ⟨?_, ?_, ?_⟩
  · obtain ⟨hs, hh⟩ := send_head_headers_shape GameHandler.end_headers
      programTypesMap fs (GameHandler.rewriteRoot p)
    unfold GameHandler.do_GET SimpleHTTPRequestHandler.do_GET
    rw [hh]
    exact extra_subset_end_headers hs
  · obtain ⟨hs, hh⟩ := send_head_headers_shape GameHandler.end_headers
      programTypesMap fs p
    unfold GameHandler.do_HEAD SimpleHTTPRequestHandler.do_HEAD
    simpa [hh] using extra_subset_end_headers hs
  · exact extra_subset_end_headers _

/-- C2: For every GET request whose path is exactly "/", the handler
substitutes "/index.html" before serving, so that, given both exist,
a GET of the root path returns the same content as an explicit GET of
"/index.html". -/
theorem c2_root_serves_index (fs : FS) (c : String)
    (_hRoot : fs "/" = some Entry.dir)
    (hIdx : fs "/index.html" = some (Entry.file c)) :
    GameHandler.do_GET fs "/" = GameHandler.do_GET fs "/index.html" ∧
    (GameHandler.do_GET fs "/").status = 200 ∧
    (GameHandler.do_GET fs "/").body = c := by
  have heq : GameHandler.do_GET fs "/"
      = GameHandler.do_GET fs "/index.html" := by
    unfold GameHandler.do_GET
    rfl
  have ht : SimpleHTTPRequestHandler.translate_path
      (GameHandler.rewriteRoot "/index.html") = "/index.html" := rfl
  have hresp : GameHandler.do_GET fs "/index.html" =
      SimpleHTTPRequestHandler.okFileResponse GameHandler.end_headers
        (SimpleHTTPRequestHandler.guess_type programTypesMap
          "/index.html") c := by
    unfold GameHandler.do_GET SimpleHTTPRequestHandler.do_GET
      SimpleHTTPRequestHandler.send_head
      SimpleHTTPRequestHandler.serveFile
    dsimp only
    rw [ht, hIdx]
    rfl
  refine ⟨heq, ?_, ?_⟩
  · rw [heq, hresp]
    rfl
  · rw [heq, hresp]
    rfl

/-- Finite filesystem used to witness C2: the root directory and an
index.html file. -/
def fs2 : FS := fun p =>
  if p = "/" then some Entry.dir
  else if p = "/index.html" then some (Entry.file "<h1>game</h1>")
  else none

/-- Witness for C2: on a concrete filesystem holding "/" and
"/index.html", the hypotheses hold and the two GETs agree. -/
theorem c2_witness :
    fs2 "/" = some Entry.dir ∧
    fs2 "/index.html" = some (Entry.file "<h1>game</h1>") ∧
    GameHandler.do_GET fs2 "/" = GameHandler.do_GET fs2 "/index.html" :=
  ⟨rfl, rfl, (c2_root_serves_index fs2 "<h1>game</h1>" rfl rfl).1⟩

/-- C3: For every request for a file whose extension is ".ts" or
".tsx", the response Content-Type is application/javascript,
overriding the platform default table (which maps ".ts" to the video
type video/mp2t and has no entry for ".tsx"). -/
theorem c3_ts_tsx_javascript_content_type (fs : FS) (p c : String)
    (hext : extOf (SimpleHTTPRequestHandler.translate_path p) = ".ts" ∨
      extOf (SimpleHTTPRequestHandler.translate_path p) = ".tsx")
    (hfile : fs (SimpleHTTPRequestHandler.translate_path p)
      = some (Entry.file c))
    (hslash : endsWithSlash (SimpleHTTPRequestHandler.translate_path p)
      = false) :
    ("Content-Type", "application/javascript")
      ∈ (GameHandler.do_GET fs p).headers ∧
    defaultTypesMap.lookup ".ts" = some "video/mp2t" ∧
    defaultTypesMap.lookup ".tsx" = none := by
  have hp : p ≠ "/" := by
    intro hp0
    subst hp0
    revert hext
    decide
  have hrw : GameHandler.rewriteRoot p = p := by
    unfold GameHandler.rewriteRoot
    simp [hp]
  have hct : SimpleHTTPRequestHandler.guess_type programTypesMap
      (SimpleHTTPRequestHandler.translate_path p)
      = "application/javascript" := by
    unfold SimpleHTTPRequestHandler.guess_type mimetypes.guess_type
    dsimp only
    cases hext with
    | inl h => rw [h]; rfl
    | inr h => rw [h]; rfl
  refine ⟨?_, rfl, rfl⟩
  unfold GameHandler.do_GET SimpleHTTPRequestHandler.do_GET
  rw [hrw]
  unfold SimpleHTTPRequestHandler.send_head
    SimpleHTTPRequestHandler.serveFile
  dsimp only
  rw [hfile]
  dsimp only
  rw [hslash]
  simp [SimpleHTTPRequestHandler.okFileResponse, hct,
    GameHandler.end_headers]

/-- Finite filesystem used to witness C3: a single TSX source file. -/
def fs3 : FS := fun p =>
  if p = "/app.tsx" then some (Entry.file "const x = 1") else none

/-- Witness for C3: a concrete GET of "/app.tsx" satisfies the
hypotheses and carries the JavaScript content-type. -/
theorem c3_witness :
    (extOf (SimpleHTTPRequestHandler.translate_path "/app.tsx") = ".ts"
      ∨ extOf (SimpleHTTPRequestHandler.translate_path "/app.tsx")
        = ".tsx") ∧
    fs3 (SimpleHTTPRequestHandler.translate_path "/app.tsx")
      = some (Entry.file "const x = 1") ∧
    ("Content-Type", "application/javascript")
      ∈ (GameHandler.do_GET fs3 "/app.tsx").headers :=
  ⟨Or.inr (by decide), rfl,
    (c3_ts_tsx_javascript_content_type fs3 "/app.tsx" "const x = 1"
      (Or.inr (by decide)) rfl (by decide)).1⟩

/-- C4: For every GET request whose (rewritten, translated) path is
nonexistent under the root, the server returns the base class's
standard 404 response — the stdlib send_error page, no custom error
page. -/
theorem c4_nonexistent_path_standard_404 (fs : FS) (p : String)
    (h : fs (SimpleHTTPRequestHandler.translate_path
      (GameHandler.rewriteRoot p)) = none) :
    GameHandler.do_GET fs p =
      SimpleHTTPRequestHandler.send_error GameHandler.end_headers 404
        "File not found" ∧
    (GameHandler.do_GET fs p).status = 404 ∧
    (GameHandler.do_GET fs p).body =
      SimpleHTTPRequestHandler.standardErrorPage 404 "File not found"
    := by
  have hmain : GameHandler.do_GET fs p =
      SimpleHTTPRequestHandler.send_error GameHandler.end_headers 404
        "File not found" := by
    unfold GameHandler.do_GET SimpleHTTPRequestHandler.do_GET
      SimpleHTTPRequestHandler.send_head
      SimpleHTTPRequestHandler.serveFile
    dsimp only
    rw [h]
    dsimp only
    split <;> rfl
  refine ⟨hmain, ?_, ?_⟩
  · rw [hmain]
    rfl
  · rw [hmain]
    rfl

/-- The empty filesystem, used to witness C4. -/
def fsEmpty : FS := fun _ => none

/-- Witness for C4: on the empty filesystem a GET of a concrete
missing path satisfies the hypothesis and yields the standard 404. -/
theorem c4_witness :
    fsEmpty (SimpleHTTPRequestHandler.translate_path
      (GameHandler.rewriteRoot "/missing.html")) = none ∧
    GameHandler.do_GET fsEmpty "/missing.html" =
      SimpleHTTPRequestHandler.send_error GameHandler.end_headers 404
        "File not found" :=
  ⟨rfl, (c4_nonexistent_path_standard_404 fsEmpty "/missing.html"
    rfl).1⟩

/-- C9: The root-to-index substitution compares the raw request
target for exact equality with "/": a GET for "/?v=1" is not
rewritten (while "/" itself is), and is handled as-is by the base
class handler. -/
theorem c9_query_string_root_not_rewritten :
    GameHandler.rewriteRoot "/?v=1" = "/?v=1" ∧
    GameHandler.rewriteRoot "/" = "/index.html" ∧
    ∀ fs : FS, GameHandler.do_GET fs "/?v=1" =
      SimpleHTTPRequestHandler.do_GET GameHandler.end_headers
        programTypesMap fs "/?v=1" := by
  refine ⟨by decide, by decide, fun fs => ?_⟩
  unfold GameHandler.do_GET
  rfl

/-- Filesystem used for C10: the root directory exists but holds no
index file. -/
def fs0 : FS := fun p => if p = "/" then some Entry.dir else none

/-- C10: Only GET is overridden with the root-to-index substitution:
HEAD goes to the base class with the raw target, so on a root
directory without an index file, GET of "/" is rewritten to the
missing "/index.html" and yields 404 while HEAD of "/" yields the
base class's 200 directory listing — the two need not describe the
same resource. -/
theorem c10_head_not_rewritten :
    (∀ (fs : FS) (p : String), GameHandler.do_HEAD fs p =
      SimpleHTTPRequestHandler.do_HEAD GameHandler.end_headers
        programTypesMap fs p) ∧
    (GameHandler.do_GET fs0 "/").status = 404 ∧
    (GameHandler.do_HEAD fs0 "/").status = 200 := by
  refine ⟨fun fs p => rfl, rfl, rfl⟩

/-- The browser launch attempt leaves the same single event whether
or not webbrowser.open succeeds: the bare except of line 58 swallows
the failure. -/
theorem browserEvents_eq (b : Bool) :
    browserEvents b = [Event.browserAttempt rootURL] := by
  cases b <;> rfl

/-- C5: If binding the configured port fails, the process reports the
failure together with the hint to close other instances and then
exits without ever serving a request; any exception raised during
startup is caught by the same handler, printed, and treated as fatal.
The trace ends with the two failure prints (nothing further happens),
no serve-loop or bind event occurs, and no exception escapes. -/
theorem c5_bind_failure_reported_fatal (s : Scenario) (msg : String)
    (h : s.outcome = RunOutcome.bindError msg) :
    Event.print ("❌ 启动失败，原因: " ++ msg) ∈ programTrace s ∧
    Event.print "💡 可能是端口被占用，请尝试关闭其他 Python 运行窗口。"
      ∈ programTrace s ∧
    Event.serveLoop ∉ programTrace s ∧
    Event.bind PORT ∉ programTrace s ∧
    (∃ pre, programTrace s = pre ++ failureEvents msg) ∧
    uncaughtException s = none := by
  obtain ⟨f, b, o⟩ := s
  dsimp only at h
  subst h
  refine ⟨?_, ?_, ?_, ?_,
    ⟨mimeSetupEvents ++ Event.chdir (DIRECTORY f)
      :: bannerEvents (DIRECTORY f) ++ browserEvents b, rfl⟩, rfl⟩
  all_goals
    simp [programTrace, start_game_server, tryServeEvents,
      browserEvents_eq, failureEvents, mimeSetupEvents, bannerEvents]

/-- Witness for C5: a concrete port-in-use scenario satisfies the
hypothesis, prints the hint, and never reaches the serve loop. -/
theorem c5_witness :
    (Scenario.mk "/srv/game/main.py" true
      (RunOutcome.bindError "[Errno 98] Address already in use")).outcome
      = RunOutcome.bindError "[Errno 98] Address already in use" ∧
    Event.serveLoop ∉ programTrace (Scenario.mk "/srv/game/main.py"
      true (RunOutcome.bindError "[Errno 98] Address already in use"))
    :=
  ⟨rfl, (c5_bind_failure_reported_fatal
    (Scenario.mk "/srv/game/main.py" true
      (RunOutcome.bindError "[Errno 98] Address already in use"))
    "[Errno 98] Address already in use" rfl).2.2.1⟩

/-- C6: A user-initiated interrupt while the server is running stops
the serve loop, prints the clean shutdown message as the final
effect, and the process exits normally (the exception is caught, so
nothing escapes start_game_server). -/
theorem c6_interrupt_clean_shutdown (s : Scenario)
    (h : s.outcome = RunOutcome.interrupted) :
    Event.serveLoop ∈ programTrace s ∧
    (∃ pre, programTrace s
      = pre ++ [Event.print "\n👋 服务器已安全关闭。"]) ∧
    uncaughtException s = none := by
  obtain ⟨f, b, o⟩ := s
  dsimp only at h
  subst h
  refine ⟨?_,
    ⟨mimeSetupEvents ++ Event.chdir (DIRECTORY f)
      :: bannerEvents (DIRECTORY f) ++ browserEvents b
      ++ Event.bind PORT :: serveBannerEvents ++ [Event.serveLoop],
      ?_⟩, rfl⟩
  · simp [programTrace, start_game_server, tryServeEvents,
      browserEvents_eq, serveBannerEvents, mimeSetupEvents,
      bannerEvents]
  · cases b <;> rfl

/-- Witness for C6: a concrete interrupted scenario satisfies the
hypothesis and its trace contains the serve loop. -/
theorem c6_witness :
    (Scenario.mk "/srv/game/main.py" true
      RunOutcome.interrupted).outcome = RunOutcome.interrupted ∧
    Event.serveLoop ∈ programTrace
      (Scenario.mk "/srv/game/main.py" true RunOutcome.interrupted) :=
  ⟨rfl, (c6_interrupt_clean_shutdown
    (Scenario.mk "/srv/game/main.py" true RunOutcome.interrupted)
    rfl).1⟩

/-- C7: In every scenario, the working directory is changed exactly
once over the whole process lifetime — by the single chdir at the
start of start_game_server — and its target is DIRECTORY, the POSIX
dirname of the program file's absolute path, fixed at module load. -/
theorem c7_directory_resolved_once (s : Scenario) :
    (programTrace s).filter isChdir
      = [Event.chdir (DIRECTORY s.fileAbs)] ∧
    (∃ rest, programTrace s
      = mimeSetupEvents ++ Event.chdir (DIRECTORY s.fileAbs) :: rest) ∧
    DIRECTORY s.fileAbs = posixDirname s.fileAbs := by
  obtain ⟨f, b, o⟩ := s
  refine ⟨?_, ⟨bannerEvents (DIRECTORY f) ++ browserEvents b
    ++ tryServeEvents o, rfl⟩, rfl⟩
  cases o <;>
    simp [programTrace, start_game_server, tryServeEvents,
      browserEvents_eq, serveBannerEvents, mimeSetupEvents,
      bannerEvents, failureEvents, isChdir]

/-- C8: The startup effects occur in this order: the MIME type
registrations (at module import), the status banner, the browser
launch attempt at the root URL http://localhost:<PORT> (whose failure
is silently ignored: the trace does not depend on it), and — in every
scenario where the bind does not fail — only then the serve loop. -/
theorem c8_startup_order (s : Scenario) :
    programTrace s =
      mimeSetupEvents ++ Event.chdir (DIRECTORY s.fileAbs)
        :: bannerEvents (DIRECTORY s.fileAbs)
        ++ [Event.browserAttempt rootURL]
        ++ tryServeEvents s.outcome ∧
    browserEvents true = browserEvents false ∧
    rootURL = "http://localhost:8000" ∧
    ((∀ msg, s.outcome ≠ RunOutcome.bindError msg) →
      ∃ tail, tryServeEvents s.outcome
        = Event.bind PORT :: serveBannerEvents
          ++ Event.serveLoop :: tail) := by
  obtain ⟨f, b, o⟩ := s
  refine ⟨?_, rfl, by decide, ?_⟩
  · cases b <;> rfl
  · intro hnb
    cases o with
    | bindError m => exact absurd rfl (hnb m)
    | interrupted => exact ⟨[Event.print "\n👋 服务器已安全关闭。"], rfl⟩
    | serveError m => exact ⟨failureEvents m, rfl⟩

/-- Witness for C8: in the concrete interrupted scenario the
no-bind-failure hypothesis holds and the serve loop follows the
browser attempt. -/
theorem c8_witness :
    (∀ msg, (Scenario.mk "/srv/game/main.py" false
      RunOutcome.interrupted).outcome ≠ RunOutcome.bindError msg) ∧
    programTrace (Scenario.mk "/srv/game/main.py" false
        RunOutcome.interrupted) =
      mimeSetupEvents ++ Event.chdir (DIRECTORY "/srv/game/main.py")
        :: bannerEvents (DIRECTORY "/srv/game/main.py")
        ++ [Event.browserAttempt rootURL]
        ++ tryServeEvents RunOutcome.interrupted :=
  ⟨fun _ h => RunOutcome.noConfusion h,
    (c8_startup_order (Scenario.mk "/srv/game/main.py" false
      RunOutcome.interrupted)).1⟩

end WordsTraining
